import Mathlib

/-!
# Verification of a string-based SHA-1 implementation

This development embeds the JavaScript SHA-1 tutorial implementation
(`src/javascript/main.js`) in Lean 4.  The implementation manipulates
binary data as strings of `'0'`/`'1'` characters; we model such strings
as `List Char`.  JavaScript number/string builtins used by the code
(`parseInt(str, 2)`, `Number.prototype.toString(base)`) are modelled by
`jsParseInt` and `jsToString`.  An input string is modelled as the list
of its character codes (`charCodeAt`), i.e. a `List Nat`.
-/

/-- `parseInt(w, 2)` on a string of binary digits: big-endian value. -/
def jsParseInt (w : List Char) : Nat :=
  w.foldl (fun acc c => 2 * acc + (if c = '1' then 1 else 0)) 0

/-- Fuel-driven digit accumulation mirroring `Number.prototype.toString(base)`:
repeatedly take `n % base` as the next (more significant) digit until the
quotient is zero.  The fuel is always sufficient (`n + 1` in `jsToString`). -/
def toBaseAux (b : Nat) : Nat → Nat → List Char → List Char
  | 0, _, acc => acc
  | fuel + 1, n, acc =>
    if n / b = 0 then Nat.digitChar (n % b) :: acc
    else toBaseAux b fuel (n / b) (Nat.digitChar (n % b) :: acc)

/-- `n.toString(b)` for a natural number `n`: digits of `n` in base `b`,
most significant first, `"0"` for zero, lowercase letters above `9`. -/
def jsToString (n b : Nat) : List Char := toBaseAux b (n + 1) n []

namespace Utils

/-- `Utils.getStringXTime(str, count)`: the string repeated `count` times. -/
def getStringXTime (s : List Char) (count : Nat) : List Char :=
  (List.replicate count s).flatten

/-- `Utils.xor`: position-wise loop up to the longer length; a position
yields `'1'` iff the two characters differ and at least one is `'1'`
(an out-of-range position reads as JavaScript `undefined`, which is
never `'1'` and differs from every character). -/
def xor : List Char → List Char → List Char
  | [], w2 => w2.map (fun y => if y = '1' then '1' else '0')
  | x :: xs, [] => (if x = '1' then '1' else '0') :: xor xs []
  | x :: xs, y :: ys =>
    (if x ≠ y ∧ (x = '1' ∨ y = '1') then '1' else '0') :: xor xs ys

/-- `Utils.or`: position-wise loop; `'1'` iff either character is `'1'`. -/
def or : List Char → List Char → List Char
  | [], w2 => w2.map (fun y => if y = '1' then '1' else '0')
  | x :: xs, [] => (if x = '1' then '1' else '0') :: or xs []
  | x :: xs, y :: ys => (if x = '1' ∨ y = '1' then '1' else '0') :: or xs ys

/-- `Utils.and`: position-wise loop; `'1'` iff both characters are `'1'`
(against an out-of-range `undefined` the conjunction is false). -/
def and : List Char → List Char → List Char
  | [], w2 => w2.map (fun _ => '0')
  | _ :: xs, [] => '0' :: and xs []
  | x :: xs, y :: ys => (if x = '1' ∧ y = '1' then '1' else '0') :: and xs ys

/-- `Utils.not`: flip each character (`'0'` becomes `'1'`, anything else `'0'`). -/
def not (w : List Char) : List Char :=
  w.map (fun c => if c = '0' then '1' else '0')

/-- `Utils.rotate(str, count)`: move the first character to the end, `count` times. -/
def rotate : List Char → Nat → List Char
  | s, 0 => s
  | [], _ + 1 => []
  | c :: rest, n + 1 => rotate (rest ++ [c]) n

/-- `Utils.add(w1, w2, length)`: binary addition of the two values, the
result rendered in binary and zero-padded or left-truncated to `length`. -/
def add (w1 w2 : List Char) (len : Nat) : List Char :=
  let b := jsToString (jsParseInt w1 + jsParseInt w2) 2
  if b.length < len then getStringXTime ['0'] (len - b.length) ++ b
  else if b.length > len then b.drop (b.length - len)
  else b

/-- `Utils.binToHex(str, length)`: hexadecimal rendering of the binary
value, zero-padded on the left when shorter than 8 characters (the
comparison against 8 is hard-coded in the source, the pad width uses
`length`). -/
def binToHex (w : List Char) (len : Nat) : List Char :=
  let s := jsToString (jsParseInt w) 16
  if s.length < 8 then getStringXTime ['0'] (len - s.length) ++ s else s

end Utils

namespace Main

/-- Steps 2–4 for one character code: binary rendering, zero-padded on the
left to (at least) 8 characters. -/
def toBin8 (c : Nat) : List Char :=
  let b := jsToString c 2
  if b.length < 8 then Utils.getStringXTime ['0'] (8 - b.length) ++ b else b

/-- Step 5: concatenation of the 8-bit renderings of all character codes. -/
def step5_combine (msg : List Nat) : List Char :=
  (msg.map toBin8).flatten

/-- Step 6: append the terminator bit `'1'`. -/
def step6_append_1 (msg : List Nat) : List Char :=
  step5_combine msg ++ ['1']

/-- Step 7: append `'0'`s until the length is congruent to 448 mod 512. -/
def step7_pad (s : List Char) : List Char :=
  let m := s.length % 512
  if m < 448 then s ++ Utils.getStringXTime ['0'] (448 - m)
  else if m > 448 then s ++ Utils.getStringXTime ['0'] (512 - m + 448)
  else s

/-- Step 8's length field: the bit-length rendered in binary and
zero-padded on the left to 64 characters. -/
def lenField64 (n : Nat) : List Char :=
  let b := jsToString n 2
  Utils.getStringXTime ['0'] (64 - b.length) ++ b

/-- Steps 6–8: the padded message. -/
def paddedMsg (msg : List Nat) : List Char :=
  step7_pad (step6_append_1 msg) ++ lenField64 (step5_combine msg).length

/-- The `while (str.length > 0)` slicing loop of steps 9 and 10: split a
string into pieces of `w` characters (the last piece may be shorter).
The fuel equals the string length at the call sites, which bounds the
iteration count whenever `0 < w`. -/
def splitEvery (w : Nat) : Nat → List Char → List (List Char)
  | 0, _ => []
  | fuel + 1, s => if s = [] then [] else s.take w :: splitEvery w fuel (s.drop w)

/-- Step 9: split the padded message into 512-character chunks. -/
def step9_chunks (s : List Char) : List (List Char) :=
  splitEvery 512 s.length s

/-- Step 10: split each chunk into 32-character words. -/
def step10_words (chunks : List (List Char)) : List (List (List Char)) :=
  chunks.map (fun c => splitEvery 32 c.length c)

/-- The word generated by one iteration of the step-11 loop, with
`j = words.length`: `rotate(W[j-3] xor W[j-8] xor W[j-14] xor W[j-16], 1)`. -/
def newWord (ws : List (List Char)) : List Char :=
  Utils.rotate
    (Utils.xor
      (Utils.xor
        (Utils.xor (ws.getD (ws.length - 3) []) (ws.getD (ws.length - 8) []))
        (ws.getD (ws.length - 14) []))
      (ws.getD (ws.length - 16) []))
    1

/-- The step-11 loop `for (j = 16; words.length < 80; j++)`, fuel-driven:
append generated words until 80 words are present. -/
def genWordsAux : Nat → List (List Char) → List (List Char)
  | 0, ws => ws
  | fuel + 1, ws =>
    if ws.length < 80 then genWordsAux fuel (ws ++ [newWord ws]) else ws

/-- Step 11 for one chunk: extend its 16 words to 80. -/
def genWords (ws : List (List Char)) : List (List Char) :=
  genWordsAux 80 ws

/-- Step 11: extend every chunk's word list to 80 words. -/
def step11_schedule (chunks : List (List (List Char))) : List (List (List Char)) :=
  chunks.map genWords

/-- Step 12 initial values `h0`–`h4`. -/
def hInit0 : List Char := "01100111010001010010001100000001".toList
def hInit1 : List Char := "11101111110011011010101110001001".toList
def hInit2 : List Char := "10011000101110101101110011111110".toList
def hInit3 : List Char := "00010000001100100101010001110110".toList
def hInit4 : List Char := "11000011110100101110000111110000".toList

/-- Five 32-bit registers: the working registers `a`–`e` of one chunk's
compression, and equally the hash registers `h0`–`h4`. -/
structure Regs where
  a : List Char
  b : List Char
  c : List Char
  d : List Char
  e : List Char
deriving DecidableEq

/-- Round function `f` of round `i`, by the `if` cascade of step 13. -/
def roundF (i : Nat) (b c d : List Char) : List Char :=
  if i < 20 then Utils.or (Utils.and b c) (Utils.and (Utils.not b) d)
  else if i < 40 then Utils.xor (Utils.xor b c) d
  else if i < 60 then
    Utils.xor (Utils.xor (Utils.and b c) (Utils.and b d)) (Utils.and c d)
  else Utils.xor (Utils.xor b c) d

/-- Round constant `k` of round `i`, by the `if` cascade of step 13. -/
def roundK (i : Nat) : List Char :=
  if i < 20 then "01011010100000100111100110011001".toList
  else if i < 40 then "01101110110110011110101110100001".toList
  else if i < 60 then "10001111000110111011110011011100".toList
  else "11001010011000101100000111010110".toList

/-- The chained additions of step 13:
`tmp = rotate(a,5); tmp += f; tmp += e; tmp += k; tmp += words[i]`,
each addition with target length 32. -/
def roundTemp (a f e k w : List Char) : List Char :=
  Utils.add (Utils.add (Utils.add (Utils.add (Utils.rotate a 5) f 32) e 32) k 32) w 32

/-- One round of step 13: compute `tmp`, then shift the register window. -/
def roundStep (ws : List (List Char)) (st : Regs) (i : Nat) : Regs :=
  let f := roundF i st.b st.c st.d
  let tmp := roundTemp st.a f st.e (roundK i) (ws.getD i [])
  ⟨tmp, st.a, Utils.rotate st.b 30, st.c, st.d⟩

/-- Step 13 for one chunk: run 80 rounds from the current hash registers,
then add the working registers back into them (target length 32). -/
def processChunk (hs : Regs) (ws : List (List Char)) : Regs :=
  let st := (List.range 80).foldl (roundStep ws) hs
  ⟨Utils.add hs.a st.a 32, Utils.add hs.b st.b 32, Utils.add hs.c st.c 32,
   Utils.add hs.d st.d 32, Utils.add hs.e st.e 32⟩

/-- The hash registers after all chunks are processed. -/
def sha1Regs (msg : List Nat) : Regs :=
  (step11_schedule (step10_words (step9_chunks (paddedMsg msg)))).foldl
    processChunk ⟨hInit0, hInit1, hInit2, hInit3, hInit4⟩

/-- Step 14 and result: the five registers rendered in hexadecimal. -/
def sha1 (msg : List Nat) : List Char :=
  let hs := sha1Regs msg
  Utils.binToHex hs.a 8 ++ Utils.binToHex hs.b 8 ++ Utils.binToHex hs.c 8 ++
    Utils.binToHex hs.d 8 ++ Utils.binToHex hs.e 8

end Main

/-! ## Binary strings -/

/-- A binary string: every character is `'0'` or `'1'`. -/
def IsBin (w : List Char) : Prop := ∀ c ∈ w, c = '0' ∨ c = '1'

/-- A 32-character binary string: the representation of a 32-bit word. -/
def Binary32 (w : List Char) : Prop := w.length = 32 ∧ IsBin w

instance : DecidablePred IsBin := fun w => List.decidableBAll _ w

instance : DecidablePred Binary32 := fun _ => inferInstanceAs (Decidable (_ ∧ _))

lemma isBin_nil : IsBin [] := by intro c hc; cases hc

lemma isBin_cons {c : Char} {l : List Char} :
    IsBin (c :: l) ↔ (c = '0' ∨ c = '1') ∧ IsBin l := by
  simp [IsBin]

lemma isBin_append {l1 l2 : List Char} (h1 : IsBin l1) (h2 : IsBin l2) :
    IsBin (l1 ++ l2) := by
  intro c hc
  rcases List.mem_append.1 hc with h | h
  exacts [h1 c h, h2 c h]

lemma isBin_replicate_zero (n : Nat) : IsBin (List.replicate n '0') := by
  intro c hc
  exact Or.inl (List.eq_of_mem_replicate hc)

/-! ## Values of binary strings -/

lemma parse_step_shift (l : List Char) : ∀ acc : Nat,
    l.foldl (fun acc c => 2 * acc + (if c = '1' then 1 else 0)) acc
      = acc * 2 ^ l.length + jsParseInt l := by
  induction l with
  | nil => intro acc; simp [jsParseInt]
  | cons c t ih =>
    intro acc
    show t.foldl _ (2 * acc + _) = _
    rw [ih]
    have h0 : jsParseInt (c :: t)
        = t.foldl (fun acc c => 2 * acc + (if c = '1' then 1 else 0))
            (2 * 0 + (if c = '1' then 1 else 0)) := rfl
    rw [h0, ih, List.length_cons, pow_succ]
    ring

lemma jsParseInt_cons (c : Char) (t : List Char) :
    jsParseInt (c :: t) = (if c = '1' then 1 else 0) * 2 ^ t.length + jsParseInt t := by
  show t.foldl _ (2 * 0 + (if c = '1' then 1 else 0)) = _
  rw [parse_step_shift]
  ring

lemma jsParseInt_append (l1 l2 : List Char) :
    jsParseInt (l1 ++ l2) = jsParseInt l1 * 2 ^ l2.length + jsParseInt l2 := by
  show (l1 ++ l2).foldl _ 0 = _
  rw [List.foldl_append, parse_step_shift]
  rfl

lemma jsParseInt_lt (l : List Char) : jsParseInt l < 2 ^ l.length := by
  induction l with
  | nil => simp [jsParseInt]
  | cons c t ih =>
    rw [jsParseInt_cons, List.length_cons, pow_succ]
    by_cases hc : c = '1' <;> simp [hc] <;> omega

lemma jsParseInt_replicate_zero (n : Nat) : jsParseInt (List.replicate n '0') = 0 := by
  induction n with
  | zero => rfl
  | succ n ih => rw [List.replicate_succ, jsParseInt_cons]; simp [ih]

lemma jsParseInt_zeros_append (n : Nat) (l : List Char) :
    jsParseInt (List.replicate n '0' ++ l) = jsParseInt l := by
  rw [jsParseInt_append, jsParseInt_replicate_zero]; simp

lemma jsParseInt_drop_eq_mod (l : List Char) (k : Nat) (h : k ≤ l.length) :
    jsParseInt (l.drop (l.length - k)) = jsParseInt l % 2 ^ k := by
  have hsplit : l.take (l.length - k) ++ l.drop (l.length - k) = l :=
    List.take_append_drop _ _
  have hlen : (l.drop (l.length - k)).length = k := by
    rw [List.length_drop]; omega
  have hlt : jsParseInt (l.drop (l.length - k)) < 2 ^ k := by
    have := jsParseInt_lt (l.drop (l.length - k))
    rwa [hlen] at this
  conv_rhs => rw [← hsplit]
  rw [jsParseInt_append, hlen, Nat.add_comm, Nat.add_mul_mod_self_right,
    Nat.mod_eq_of_lt hlt]

/-! ## Digit strings produced by jsToString -/

lemma isBin_toBaseAux_two : ∀ (f n : Nat) (acc : List Char),
    IsBin acc → IsBin (toBaseAux 2 f n acc) := by
  intro f
  induction f with
  | zero => intro n acc h; exact h
  | succ f ih =>
    intro n acc h
    have hd : Nat.digitChar (n % 2) = '0' ∨ Nat.digitChar (n % 2) = '1' := by
      rcases Nat.mod_two_eq_zero_or_one n with h2 | h2 <;> rw [h2] <;> decide
    show IsBin (if n / 2 = 0 then _ else _)
    split
    · exact isBin_cons.2 ⟨hd, h⟩
    · exact ih (n / 2) _ (isBin_cons.2 ⟨hd, h⟩)

lemma toBaseAux_two_parse : ∀ (f n : Nat) (acc : List Char), n < 2 ^ f →
    jsParseInt (toBaseAux 2 f n acc) = n * 2 ^ acc.length + jsParseInt acc := by
  intro f
  induction f with
  | zero =>
    intro n acc h
    have : n = 0 := by simpa using h
    subst this
    simp [toBaseAux]
  | succ f ih =>
    intro n acc h
    have hd : (if Nat.digitChar (n % 2) = '1' then 1 else 0) = n % 2 := by
      rcases Nat.mod_two_eq_zero_or_one n with h2 | h2 <;> rw [h2] <;> decide
    have hmod : 2 * (n / 2) + n % 2 = n := Nat.div_add_mod n 2
    show jsParseInt (if n / 2 = 0 then _ else _) = _
    split
    · rename_i hz
      rw [jsParseInt_cons, hd]
      have : n % 2 = n := by omega
      rw [this]
    · rename_i hz
      have hdiv : n / 2 < 2 ^ f := by
        rw [pow_succ] at h; omega
      rw [ih (n / 2) _ hdiv, List.length_cons, jsParseInt_cons, hd, pow_succ]
      conv_rhs => rw [← hmod]
      ring

lemma jsToString_two_parse (n : Nat) : jsParseInt (jsToString n 2) = n := by
  have h : n < 2 ^ (n + 1) :=
    lt_of_lt_of_le (Nat.lt_two_pow n) (Nat.pow_le_pow_right (by omega) (by omega))
  have := toBaseAux_two_parse (n + 1) n [] h
  simpa [jsToString, jsParseInt] using this

lemma isBin_jsToString_two (n : Nat) : IsBin (jsToString n 2) :=
  isBin_toBaseAux_two _ _ _ isBin_nil

lemma toBaseAux_length_le : ∀ (f b n k : Nat) (acc : List Char), 2 ≤ b → n < b ^ k →
    1 ≤ k → (toBaseAux b f n acc).length ≤ k + acc.length := by
  intro f
  induction f with
  | zero =>
    intro b n k acc _ _ _
    show acc.length ≤ _
    omega
  | succ f ih =>
    intro b n k acc hb hn hk
    show (if n / b = 0 then _ else _ : List Char).length ≤ _
    split
    · rw [List.length_cons]; omega
    · rename_i hz
      have hbn : b ≤ n := by
        by_contra hc
        push_neg at hc
        exact hz (Nat.div_eq_of_lt hc)
      have hk2 : 2 ≤ k := by
        by_contra hc
        push_neg at hc
        have hk1 : k = 1 := by omega
        rw [hk1, pow_one] at hn
        omega
      have hdiv : n / b < b ^ (k - 1) := by
        have hpow : b ^ (k - 1) * b = b ^ k := by
          rw [← pow_succ]
          congr 1
          omega
        rw [Nat.div_lt_iff_lt_mul (by omega : 0 < b), hpow]
        exact hn
      have := ih b (n / b) (k - 1) (Nat.digitChar (n % b) :: acc) hb hdiv (by omega)
      rw [List.length_cons] at this
      omega

lemma jsToString_length_le (n b k : Nat) (hb : 2 ≤ b) (hn : n < b ^ k) (hk : 1 ≤ k) :
    (jsToString n b).length ≤ k := by
  have := toBaseAux_length_le (n + 1) b n k [] hb hn hk
  simpa [jsToString] using this

/-! ## getStringXTime -/

lemma getStringXTime_zero_eq (n : Nat) :
    Utils.getStringXTime ['0'] n = List.replicate n '0' := by
  induction n with
  | zero => rfl
  | succ n ih =>
    show (List.replicate (n + 1) ['0']).flatten = _
    rw [List.replicate_succ, List.flatten_cons, List.replicate_succ]
    rw [show (['0'] : List Char) ++ (List.replicate n ['0']).flatten
        = '0' :: (List.replicate n ['0']).flatten from rfl]
    exact congrArg _ ih

lemma getStringXTime_length (s : List Char) (n : Nat) :
    (Utils.getStringXTime s n).length = n * s.length := by
  induction n with
  | zero => simp [Utils.getStringXTime]
  | succ n ih =>
    show ((List.replicate (n + 1) s).flatten).length = _
    rw [List.replicate_succ, List.flatten_cons, List.length_append]
    rw [show ((List.replicate n s).flatten).length
        = (Utils.getStringXTime s n).length from rfl, ih]
    ring

/-! ## Lengths and characters of the bitwise operations -/

lemma xor_length_of_eq : ∀ {w1 w2 : List Char}, w1.length = w2.length →
    (Utils.xor w1 w2).length = w1.length := by
  intro w1
  induction w1 with
  | nil =>
    intro w2 h
    have h0 : w2.length = 0 := by simpa using h.symm
    simp [Utils.xor, h0]
  | cons x xs ih =>
    intro w2 h
    cases w2 with
    | nil => simp at h
    | cons y ys =>
      simp only [Utils.xor, List.length_cons]
      rw [ih (by simpa using h)]

lemma or_length_of_eq : ∀ {w1 w2 : List Char}, w1.length = w2.length →
    (Utils.or w1 w2).length = w1.length := by
  intro w1
  induction w1 with
  | nil =>
    intro w2 h
    have h0 : w2.length = 0 := by simpa using h.symm
    simp [Utils.or, h0]
  | cons x xs ih =>
    intro w2 h
    cases w2 with
    | nil => simp at h
    | cons y ys =>
      simp only [Utils.or, List.length_cons]
      rw [ih (by simpa using h)]

lemma and_length_of_eq : ∀ {w1 w2 : List Char}, w1.length = w2.length →
    (Utils.and w1 w2).length = w1.length := by
  intro w1
  induction w1 with
  | nil =>
    intro w2 h
    have h0 : w2.length = 0 := by simpa using h.symm
    simp [Utils.and, h0]
  | cons x xs ih =>
    intro w2 h
    cases w2 with
    | nil => simp at h
    | cons y ys =>
      simp only [Utils.and, List.length_cons]
      rw [ih (by simpa using h)]

lemma isBin_xor : ∀ (w1 w2 : List Char), IsBin (Utils.xor w1 w2) := by
  intro w1
  induction w1 with
  | nil =>
    intro w2 c hc
    rw [Utils.xor] at hc
    rcases List.mem_map.1 hc with ⟨y, _, rfl⟩
    by_cases hy : y = '1' <;> simp [hy]
  | cons x xs ih =>
    intro w2 c hc
    cases w2 with
    | nil =>
      rcases List.mem_cons.1 hc with rfl | hm
      · split <;> simp
      · exact ih [] c hm
    | cons y ys =>
      rcases List.mem_cons.1 hc with rfl | hm
      · split <;> simp
      · exact ih ys c hm

lemma isBin_or : ∀ (w1 w2 : List Char), IsBin (Utils.or w1 w2) := by
  intro w1
  induction w1 with
  | nil =>
    intro w2 c hc
    rw [Utils.or] at hc
    rcases List.mem_map.1 hc with ⟨y, _, rfl⟩
    by_cases hy : y = '1' <;> simp [hy]
  | cons x xs ih =>
    intro w2 c hc
    cases w2 with
    | nil =>
      rcases List.mem_cons.1 hc with rfl | hm
      · split <;> simp
      · exact ih [] c hm
    | cons y ys =>
      rcases List.mem_cons.1 hc with rfl | hm
      · split <;> simp
      · exact ih ys c hm

lemma isBin_and : ∀ (w1 w2 : List Char), IsBin (Utils.and w1 w2) := by
  intro w1
  induction w1 with
  | nil =>
    intro w2 c hc
    rw [Utils.and] at hc
    rcases List.mem_map.1 hc with ⟨y, _, rfl⟩
    simp
  | cons x xs ih =>
    intro w2 c hc
    cases w2 with
    | nil =>
      rcases List.mem_cons.1 hc with rfl | hm
      · simp
      · exact ih [] c hm
    | cons y ys =>
      rcases List.mem_cons.1 hc with rfl | hm
      · split <;> simp
      · exact ih ys c hm

lemma not_length (w : List Char) : (Utils.not w).length = w.length := by
  simp [Utils.not]

lemma isBin_not (w : List Char) : IsBin (Utils.not w) := by
  intro c hc
  rcases List.mem_map.1 hc with ⟨y, _, rfl⟩
  by_cases hy : y = '0' <;> simp [hy]

lemma rotate_length : ∀ (n : Nat) (s : List Char), (Utils.rotate s n).length = s.length := by
  intro n
  induction n with
  | zero => intro s; simp only [Utils.rotate]
  | succ n ih =>
    intro s
    cases s with
    | nil => simp only [Utils.rotate]
    | cons c rest =>
      simp only [Utils.rotate]
      rw [ih]
      simp

lemma isBin_rotate : ∀ (n : Nat) (s : List Char), IsBin s → IsBin (Utils.rotate s n) := by
  intro n
  induction n with
  | zero => intro s h; simpa only [Utils.rotate] using h
  | succ n ih =>
    intro s h
    cases s with
    | nil => simpa only [Utils.rotate] using h
    | cons c rest =>
      simp only [Utils.rotate]
      refine ih _ (isBin_append (isBin_cons.1 h).2 ?_)
      intro x hx
      rw [List.mem_singleton] at hx
      subst hx
      exact (isBin_cons.1 h).1

lemma binary32_rotate {w : List Char} (n : Nat) (h : Binary32 w) :
    Binary32 (Utils.rotate w n) :=
  ⟨by rw [rotate_length]; exact h.1, isBin_rotate n w h.2⟩

lemma isBin_drop {l : List Char} (k : Nat) (h : IsBin l) : IsBin (l.drop k) := by
  intro c hc
  exact h c (List.mem_of_mem_drop hc)

/-! ## Utils.add and Utils.binToHex -/

lemma add_length (w1 w2 : List Char) (len : Nat) : (Utils.add w1 w2 len).length = len := by
  show (if (jsToString (jsParseInt w1 + jsParseInt w2) 2).length < len then _
    else if (jsToString (jsParseInt w1 + jsParseInt w2) 2).length > len then _ else _ :
      List Char).length = len
  split
  · rename_i h
    rw [List.length_append, getStringXTime_length]
    simp only [List.length_singleton]
    omega
  · split
    · rename_i h1 h2
      rw [List.length_drop]
      omega
    · omega

lemma isBin_add (w1 w2 : List Char) (len : Nat) : IsBin (Utils.add w1 w2 len) := by
  have hb : IsBin (jsToString (jsParseInt w1 + jsParseInt w2) 2) := isBin_jsToString_two _
  show IsBin (if _ then _ else if _ then _ else _)
  split
  · rw [getStringXTime_zero_eq]
    exact isBin_append (isBin_replicate_zero _) hb
  · split
    · exact isBin_drop _ hb
    · exact hb

lemma binary32_add (w1 w2 : List Char) : Binary32 (Utils.add w1 w2 32) :=
  ⟨add_length w1 w2 32, isBin_add w1 w2 32⟩

lemma add32_parse (w1 w2 : List Char) :
    jsParseInt (Utils.add w1 w2 32) = (jsParseInt w1 + jsParseInt w2) % 2 ^ 32 := by
  have hparse : jsParseInt (jsToString (jsParseInt w1 + jsParseInt w2) 2)
      = jsParseInt w1 + jsParseInt w2 := jsToString_two_parse _
  have hlt := jsParseInt_lt (jsToString (jsParseInt w1 + jsParseInt w2) 2)
  show jsParseInt (if _ then _ else if _ then _ else _) = _
  split
  · rename_i h
    rw [getStringXTime_zero_eq, jsParseInt_zeros_append, hparse]
    have hv : jsParseInt w1 + jsParseInt w2 < 2 ^ 32 := by
      rw [hparse] at hlt
      calc jsParseInt w1 + jsParseInt w2 < 2 ^ (jsToString (jsParseInt w1 + jsParseInt w2) 2).length := hlt
        _ ≤ 2 ^ 32 := Nat.pow_le_pow_right (by omega) (by omega)
    exact (Nat.mod_eq_of_lt hv).symm
  · split
    · rename_i h1 h2
      rw [jsParseInt_drop_eq_mod _ 32 (by omega), hparse]
    · rename_i h1 h2
      have hlen : (jsToString (jsParseInt w1 + jsParseInt w2) 2).length = 32 := by omega
      rw [hparse]
      rw [hparse, hlen] at hlt
      exact (Nat.mod_eq_of_lt hlt).symm

lemma binToHex_length (w : List Char) (h : jsParseInt w < 2 ^ 32) :
    (Utils.binToHex w 8).length = 8 := by
  have h16 : jsParseInt w < 16 ^ 8 := by
    have : (16 : Nat) ^ 8 = 2 ^ 32 := by norm_num
    omega
  have hle : (jsToString (jsParseInt w) 16).length ≤ 8 :=
    jsToString_length_le _ 16 8 (by omega) h16 (by omega)
  show (if (jsToString (jsParseInt w) 16).length < 8 then _ else _ : List Char).length = 8
  split
  · rw [List.length_append, getStringXTime_length]
    simp only [List.length_singleton]
    omega
  · omega

/-! ## Message encoding (steps 1-5) -/

lemma isBin_toBin8 (c : Nat) : IsBin (Main.toBin8 c) := by
  show IsBin (if _ then _ else _)
  split
  · rw [getStringXTime_zero_eq]
    exact isBin_append (isBin_replicate_zero _) (isBin_jsToString_two _)
  · exact isBin_jsToString_two _

lemma toBin8_length (c : Nat) (h : c < 256) : (Main.toBin8 c).length = 8 := by
  have hle : (jsToString c 2).length ≤ 8 :=
    jsToString_length_le c 2 8 (by omega) (by omega) (by omega)
  show (if _ then _ else _ : List Char).length = 8
  split
  · rw [List.length_append, getStringXTime_length]
    simp only [List.length_singleton]
    omega
  · omega

lemma toBin8_parse (c : Nat) : jsParseInt (Main.toBin8 c) = c := by
  show jsParseInt (if _ then _ else _) = c
  split
  · rw [getStringXTime_zero_eq, jsParseInt_zeros_append, jsToString_two_parse]
  · rw [jsToString_two_parse]

lemma isBin_step5 (msg : List Nat) : IsBin (Main.step5_combine msg) := by
  intro c hc
  rcases List.mem_flatten.1 hc with ⟨l, hl, hcl⟩
  rcases List.mem_map.1 hl with ⟨a, _, rfl⟩
  exact isBin_toBin8 a c hcl

lemma step5_length (msg : List Nat) (h : ∀ c ∈ msg, c < 256) :
    (Main.step5_combine msg).length = 8 * msg.length := by
  induction msg with
  | nil => rfl
  | cons a t ih =>
    show ((Main.toBin8 a :: t.map Main.toBin8).flatten).length = _
    rw [List.flatten_cons, List.length_append]
    rw [show ((t.map Main.toBin8).flatten).length = (Main.step5_combine t).length from rfl]
    rw [ih (fun c hc => h c (List.mem_cons_of_mem a hc))]
    rw [toBin8_length a (h a (List.mem_cons_self a t))]
    simp
    ring

/-! ## Padding (steps 6-8) -/

lemma step6_length (msg : List Nat) :
    (Main.step6_append_1 msg).length = (Main.step5_combine msg).length + 1 := by
  simp [Main.step6_append_1]

lemma step7_mod (s : List Char) :
    (Main.step7_pad s).length % 512 = 448 ∧ s.length ≤ (Main.step7_pad s).length := by
  simp only [Main.step7_pad]
  constructor
  · split
    · rw [List.length_append, getStringXTime_length]
      simp only [List.length_singleton]
      omega
    · split
      · rw [List.length_append, getStringXTime_length]
        simp only [List.length_singleton]
        omega
      · omega
  · split
    · rw [List.length_append]; omega
    · split
      · rw [List.length_append]; omega
      · omega

lemma lenField64_length (n : Nat) (h : n < 2 ^ 64) : (Main.lenField64 n).length = 64 := by
  have hle : (jsToString n 2).length ≤ 64 :=
    jsToString_length_le n 2 64 (by omega) h (by omega)
  show (Utils.getStringXTime ['0'] _ ++ _).length = 64
  rw [List.length_append, getStringXTime_length]
  simp only [List.length_singleton]
  omega

lemma lenField64_parse (n : Nat) : jsParseInt (Main.lenField64 n) = n := by
  show jsParseInt (Utils.getStringXTime ['0'] _ ++ _) = n
  rw [getStringXTime_zero_eq, jsParseInt_zeros_append, jsToString_two_parse]

lemma isBin_lenField64 (n : Nat) : IsBin (Main.lenField64 n) := by
  show IsBin (Utils.getStringXTime ['0'] _ ++ _)
  rw [getStringXTime_zero_eq]
  exact isBin_append (isBin_replicate_zero _) (isBin_jsToString_two _)

lemma isBin_step7 (s : List Char) (h : IsBin s) : IsBin (Main.step7_pad s) := by
  show IsBin (if _ then _ else if _ then _ else _)
  split
  · rw [getStringXTime_zero_eq]
    exact isBin_append h (isBin_replicate_zero _)
  · split
    · rw [getStringXTime_zero_eq]
      exact isBin_append h (isBin_replicate_zero _)
    · exact h

lemma isBin_paddedMsg (msg : List Nat) : IsBin (Main.paddedMsg msg) := by
  refine isBin_append (isBin_step7 _ ?_) (isBin_lenField64 _)
  exact isBin_append (isBin_step5 msg) (by intro c hc; simp at hc; simp [hc])

lemma paddedMsg_length (msg : List Nat) (h : (Main.step5_combine msg).length < 2 ^ 64) :
    (Main.paddedMsg msg).length % 512 = 0 ∧ 512 ≤ (Main.paddedMsg msg).length := by
  have h7 := step7_mod (Main.step6_append_1 msg)
  have h6 := step6_length msg
  have hlf := lenField64_length (Main.step5_combine msg).length h
  simp only [Main.paddedMsg, List.length_append]
  rw [hlf]
  omega

set_option maxRecDepth 8000 in
/-- C6: for every supported input message (bit-length below 2^64), the padded
buffer's length in bits is a positive multiple of 512 (hence at least 512);
for the zero-length message the result is one 512-bit block: the 1 bit,
447 zeros, and a 64-bit zero length field. -/
theorem padded_length_multiple_of_512 (msg : List Nat)
    (h : (Main.step5_combine msg).length < 2 ^ 64) :
    (Main.paddedMsg msg).length % 512 = 0 ∧ 512 ≤ (Main.paddedMsg msg).length ∧
    Main.paddedMsg [] = '1' :: (List.replicate 447 '0' ++ List.replicate 64 '0') := by
  refine ⟨(paddedMsg_length msg h).1, (paddedMsg_length msg h).2, by decide⟩

/-- C6 witness. -/
theorem padded_length_multiple_of_512_witness :
    (Main.step5_combine [72]).length < 2 ^ 64 ∧
    ((Main.paddedMsg [72]).length % 512 = 0 ∧ 512 ≤ (Main.paddedMsg [72]).length ∧
      Main.paddedMsg [] = '1' :: (List.replicate 447 '0' ++ List.replicate 64 '0')) :=
  ⟨by decide, padded_length_multiple_of_512 [72] (by decide)⟩

/-- C7: for every message whose bit-length is below 2^64, the final 64
characters of the padded buffer are the original message's bit-length as a
64-bit big-endian binary number. -/
theorem final_64_bits_encode_bitlen (msg : List Nat)
    (h : (Main.step5_combine msg).length < 2 ^ 64) :
    ((Main.paddedMsg msg).drop ((Main.paddedMsg msg).length - 64)).length = 64 ∧
    jsParseInt ((Main.paddedMsg msg).drop ((Main.paddedMsg msg).length - 64))
      = (Main.step5_combine msg).length := by
  have hlf := lenField64_length (Main.step5_combine msg).length h
  have hp : Main.paddedMsg msg = Main.step7_pad (Main.step6_append_1 msg) ++
      Main.lenField64 (Main.step5_combine msg).length := rfl
  have hdrop : (Main.paddedMsg msg).drop ((Main.paddedMsg msg).length - 64)
      = Main.lenField64 (Main.step5_combine msg).length := by
    rw [hp, List.length_append, hlf]
    have heq : (Main.step7_pad (Main.step6_append_1 msg)).length + 64 - 64
        = (Main.step7_pad (Main.step6_append_1 msg)).length := by omega
    rw [heq, List.drop_left]
  rw [hdrop, hlf, lenField64_parse]
  exact ⟨rfl, rfl⟩

/-- C7 witness. -/
theorem final_64_bits_encode_bitlen_witness :
    (Main.step5_combine [72]).length < 2 ^ 64 ∧
    (((Main.paddedMsg [72]).drop ((Main.paddedMsg [72]).length - 64)).length = 64 ∧
      jsParseInt ((Main.paddedMsg [72]).drop ((Main.paddedMsg [72]).length - 64))
        = (Main.step5_combine [72]).length) :=
  ⟨by decide, final_64_bits_encode_bitlen [72] (by decide)⟩

/-- C9: the input-encoding steps encode each character as exactly one 8-bit
big-endian group equal to its code point, for code points 0 through 255. -/
theorem encoding_one_byte_per_char (msg : List Nat) (h : ∀ c ∈ msg, c < 256) :
    Main.step5_combine msg = (msg.map Main.toBin8).flatten ∧
    (Main.step5_combine msg).length = 8 * msg.length ∧
    ∀ c ∈ msg, (Main.toBin8 c).length = 8 ∧ jsParseInt (Main.toBin8 c) = c := by
  refine ⟨rfl, step5_length msg h, fun c hc => ⟨toBin8_length c (h c hc), toBin8_parse c⟩⟩

/-- C9 witness. -/
theorem encoding_one_byte_per_char_witness :
    (∀ c ∈ [72, 255, 0], c < 256) ∧
    (Main.step5_combine [72, 255, 0] = ([72, 255, 0].map Main.toBin8).flatten ∧
      (Main.step5_combine [72, 255, 0]).length = 8 * ([72, 255, 0] : List Nat).length ∧
      ∀ c ∈ [72, 255, 0], (Main.toBin8 c).length = 8 ∧ jsParseInt (Main.toBin8 c) = c) :=
  ⟨by decide, encoding_one_byte_per_char [72, 255, 0] (by decide)⟩

/-! ## Chunk and word splitting (steps 9-10) -/

lemma splitEvery_mem_length : ∀ (f : Nat) (s : List Char) (w : Nat), 0 < w →
    s.length % w = 0 → s.length ≤ f → ∀ c ∈ Main.splitEvery w f s, c.length = w := by
  intro f
  induction f with
  | zero =>
    intro s w _ _ _ c hc
    simp [Main.splitEvery] at hc
  | succ f ih =>
    intro s w hw hmod hle c hc
    simp only [Main.splitEvery] at hc
    by_cases hs : s = []
    · simp [hs] at hc
    · rw [if_neg hs] at hc
      have hpos : s.length ≠ 0 := fun h0 => hs (List.length_eq_zero.1 h0)
      have hslen : w ≤ s.length := by
        rcases Nat.lt_or_ge s.length w with hlt | hge
        · have := Nat.mod_eq_of_lt hlt
          omega
        · exact hge
      rcases List.mem_cons.1 hc with rfl | hm
      · rw [List.length_take]
        omega
      · have hdm : (s.drop w).length % w = 0 := by
          rw [List.length_drop]
          have heq : s.length - w + w = s.length := by omega
          have h2 : (s.length - w + w) % w = (s.length - w) % w := Nat.add_mod_right _ _
          rw [heq] at h2
          omega
        refine ih (s.drop w) w hw hdm ?_ c hm
        rw [List.length_drop]
        omega

lemma splitEvery_mem_isBin : ∀ (f : Nat) (s : List Char) (w : Nat), IsBin s →
    ∀ c ∈ Main.splitEvery w f s, IsBin c := by
  intro f
  induction f with
  | zero =>
    intro s w _ c hc
    simp [Main.splitEvery] at hc
  | succ f ih =>
    intro s w hbin c hc
    simp only [Main.splitEvery] at hc
    by_cases hs : s = []
    · simp [hs] at hc
    · rw [if_neg hs] at hc
      rcases List.mem_cons.1 hc with rfl | hm
      · intro x hx
        exact hbin x (List.take_subset _ _ hx)
      · exact ih (s.drop w) w (fun a ha => hbin a (List.drop_subset _ _ ha)) c hm

lemma splitEvery_count : ∀ (f : Nat) (s : List Char) (w : Nat), 0 < w →
    s.length % w = 0 → s.length ≤ f → (Main.splitEvery w f s).length = s.length / w := by
  intro f
  induction f with
  | zero =>
    intro s w hw _ hle
    have h0 : s.length = 0 := by omega
    simp [Main.splitEvery, h0]
  | succ f ih =>
    intro s w hw hmod hle
    simp only [Main.splitEvery]
    by_cases hs : s = []
    · simp [hs]
    · rw [if_neg hs]
      have hpos : s.length ≠ 0 := fun h0 => hs (List.length_eq_zero.1 h0)
      have hslen : w ≤ s.length := by
        rcases Nat.lt_or_ge s.length w with hlt | hge
        · have := Nat.mod_eq_of_lt hlt
          omega
        · exact hge
      have hdm : (s.drop w).length % w = 0 := by
        rw [List.length_drop]
        have heq : s.length - w + w = s.length := by omega
        have h2 : (s.length - w + w) % w = (s.length - w) % w := Nat.add_mod_right _ _
        rw [heq] at h2
        omega
      have hdl : (s.drop w).length ≤ f := by
        rw [List.length_drop]
        omega
      rw [List.length_cons, ih (s.drop w) w hw hdm hdl, List.length_drop]
      have h3 : s.length - w + w = s.length := by omega
      have h4 := Nat.add_div_right (s.length - w) hw
      rw [h3] at h4
      omega

/-! ## Schedule expansion (step 11) -/

/-- The schedule recurrence of the spec: every word from position 16 on is
the rotation by one of the XOR of the words 3, 8, 14 and 16 positions back. -/
def SchedRec (W : List (List Char)) : Prop :=
  ∀ t, 16 ≤ t → t < W.length →
    W.getD t [] = Utils.rotate (Utils.xor (Utils.xor (Utils.xor
      (W.getD (t - 3) []) (W.getD (t - 8) [])) (W.getD (t - 14) []))
      (W.getD (t - 16) [])) 1

lemma genWordsAux_eq_append : ∀ (f : Nat) (ws : List (List Char)),
    ∃ ext, Main.genWordsAux f ws = ws ++ ext := by
  intro f
  induction f with
  | zero => intro ws; exact ⟨[], by simp [Main.genWordsAux]⟩
  | succ f ih =>
    intro ws
    by_cases h : ws.length < 80
    · rcases ih (ws ++ [Main.newWord ws]) with ⟨ext, hx⟩
      refine ⟨[Main.newWord ws] ++ ext, ?_⟩
      simp only [Main.genWordsAux, if_pos h]
      rw [hx]
      simp
    · exact ⟨[], by simp only [Main.genWordsAux, if_neg h]; simp⟩

lemma genWordsAux_length : ∀ (f : Nat) (ws : List (List Char)), ws.length ≤ 80 →
    80 ≤ f + ws.length → (Main.genWordsAux f ws).length = 80 := by
  intro f
  induction f with
  | zero =>
    intro ws h1 h2
    simp only [Main.genWordsAux]
    omega
  | succ f ih =>
    intro ws h1 h2
    simp only [Main.genWordsAux]
    split
    · rename_i h
      refine ih (ws ++ [Main.newWord ws]) ?_ ?_ <;>
        simp only [List.length_append, List.length_singleton] <;> omega
    · rename_i h
      omega

lemma schedRec_append_new (ws : List (List Char)) (h16 : 16 ≤ ws.length)
    (h : SchedRec ws) : SchedRec (ws ++ [Main.newWord ws]) := by
  intro t ht hlt
  rw [List.length_append, List.length_singleton] at hlt
  rcases Nat.lt_or_ge t ws.length with hcase | hcase
  · rw [List.getD_append _ _ _ _ hcase, List.getD_append _ _ _ _ (by omega),
      List.getD_append _ _ _ _ (by omega), List.getD_append _ _ _ _ (by omega),
      List.getD_append _ _ _ _ (by omega)]
    exact h t ht hcase
  · have hteq : t = ws.length := by omega
    subst hteq
    rw [List.getD_append_right _ _ _ _ (le_refl _), Nat.sub_self,
      List.getD_append _ _ _ _ (by omega), List.getD_append _ _ _ _ (by omega),
      List.getD_append _ _ _ _ (by omega), List.getD_append _ _ _ _ (by omega)]
    rfl

lemma genWordsAux_schedRec : ∀ (f : Nat) (ws : List (List Char)), 16 ≤ ws.length →
    SchedRec ws → SchedRec (Main.genWordsAux f ws) := by
  intro f
  induction f with
  | zero =>
    intro ws _ h
    simpa only [Main.genWordsAux] using h
  | succ f ih =>
    intro ws h16 h
    simp only [Main.genWordsAux]
    split
    · refine ih (ws ++ [Main.newWord ws]) ?_ (schedRec_append_new ws h16 h)
      rw [List.length_append, List.length_singleton]
      omega
    · exact h

/-- C3: expanding a 16-word block yields 80 words whose first 16 are the
block's words verbatim and whose words 16 through 79 satisfy the recurrence
rotate-left-by-one of the XOR of the words 3, 8, 14 and 16 positions back. -/
theorem schedule_expansion (ws : List (List Char)) (h : ws.length = 16) :
    (Main.genWords ws).length = 80 ∧ (Main.genWords ws).take 16 = ws ∧
    ∀ t, 16 ≤ t → t < 80 →
      (Main.genWords ws).getD t [] = Utils.rotate (Utils.xor (Utils.xor (Utils.xor
        ((Main.genWords ws).getD (t - 3) []) ((Main.genWords ws).getD (t - 8) []))
        ((Main.genWords ws).getD (t - 14) []))
        ((Main.genWords ws).getD (t - 16) [])) 1 := by
  have hlen : (Main.genWords ws).length = 80 :=
    genWordsAux_length 80 ws (by omega) (by omega)
  have hrec : SchedRec (Main.genWords ws) :=
    genWordsAux_schedRec 80 ws (by omega) (fun t ht hlt => by omega)
  refine ⟨hlen, ?_, fun t ht hlt => hrec t ht (by rw [hlen]; exact hlt)⟩
  rcases genWordsAux_eq_append 80 ws with ⟨ext, hx⟩
  show (Main.genWordsAux 80 ws).take 16 = ws
  rw [hx, ← h, List.take_left]

/-- C3 witness. -/
theorem schedule_expansion_witness :
    (List.replicate 16 (List.replicate 32 '0')).length = 16 ∧
    ((Main.genWords (List.replicate 16 (List.replicate 32 '0'))).length = 80 ∧
      (Main.genWords (List.replicate 16 (List.replicate 32 '0'))).take 16
        = List.replicate 16 (List.replicate 32 '0') ∧
      ∀ t, 16 ≤ t → t < 80 →
        (Main.genWords (List.replicate 16 (List.replicate 32 '0'))).getD t []
          = Utils.rotate (Utils.xor (Utils.xor (Utils.xor
            ((Main.genWords (List.replicate 16 (List.replicate 32 '0'))).getD (t - 3) [])
            ((Main.genWords (List.replicate 16 (List.replicate 32 '0'))).getD (t - 8) []))
            ((Main.genWords (List.replicate 16 (List.replicate 32 '0'))).getD (t - 14) []))
            ((Main.genWords (List.replicate 16 (List.replicate 32 '0'))).getD (t - 16) [])) 1) :=
  ⟨by decide, schedule_expansion (List.replicate 16 (List.replicate 32 '0')) (by decide)⟩

/-! ## The round-40-59 majority function -/

lemma maj_xor_eq_maj_or : ∀ (b c d : List Char), IsBin b → IsBin c → IsBin d →
    b.length = c.length → c.length = d.length →
    Utils.xor (Utils.xor (Utils.and b c) (Utils.and b d)) (Utils.and c d)
      = Utils.or (Utils.or (Utils.and b c) (Utils.and b d)) (Utils.and c d) := by
  intro b
  induction b with
  | nil =>
    intro c d _ _ _ hbc hcd
    have hc : c = [] := List.length_eq_zero.1 (by simpa using hbc.symm)
    have hd : d = [] := List.length_eq_zero.1 (by simp [hc] at hcd; omega)
    subst hc
    subst hd
    rfl
  | cons x xs ih =>
    intro c d hb hc hd hbc hcd
    cases c with
    | nil => simp at hbc
    | cons y ys =>
      cases d with
      | nil => simp at hcd
      | cons z zs =>
        rcases isBin_cons.1 hb with ⟨hx, hxs⟩
        rcases isBin_cons.1 hc with ⟨hy, hys⟩
        rcases isBin_cons.1 hd with ⟨hz, hzs⟩
        have ihx := ih ys zs hxs hys hzs (by simpa using hbc) (by simpa using hcd)
        rcases hx with rfl | rfl <;> rcases hy with rfl | rfl <;>
          rcases hz with rfl | rfl <;>
          simp [Utils.and, Utils.xor, Utils.or, ihx]

/-- C2: in rounds 40 through 59 the round function is the majority of b, c, d
(the XOR form computed by the code equals the OR form of the spec on 32-bit
binary strings), and the round constant is 0x8F1BBCDC. -/
theorem round_40_59_majority (t : Nat) (b c d : List Char) (h1 : 40 ≤ t) (h2 : t < 60)
    (hb : Binary32 b) (hc : Binary32 c) (hd : Binary32 d) :
    Main.roundF t b c d
      = Utils.or (Utils.or (Utils.and b c) (Utils.and b d)) (Utils.and c d) ∧
    Main.roundK t = "10001111000110111011110011011100".toList ∧
    jsParseInt (Main.roundK t) = 0x8F1BBCDC := by
  have hf : Main.roundF t b c d
      = Utils.xor (Utils.xor (Utils.and b c) (Utils.and b d)) (Utils.and c d) := by
    simp only [Main.roundF, if_neg (by omega : ¬ t < 20), if_neg (by omega : ¬ t < 40),
      if_pos (by omega : t < 60)]
  have hk : Main.roundK t = "10001111000110111011110011011100".toList := by
    simp only [Main.roundK, if_neg (by omega : ¬ t < 20), if_neg (by omega : ¬ t < 40),
      if_pos (by omega : t < 60)]
  refine ⟨?_, hk, by rw [hk]; decide⟩
  rw [hf]
  have hl1 : b.length = c.length := by rw [hb.1, hc.1]
  have hl2 : c.length = d.length := by rw [hc.1, hd.1]
  exact maj_xor_eq_maj_or b c d hb.2 hc.2 hd.2 hl1 hl2

/-- C2 witness. -/
theorem round_40_59_majority_witness :
    (40 ≤ 40 ∧ 40 < 60 ∧ Binary32 Main.hInit0 ∧ Binary32 Main.hInit1 ∧
      Binary32 Main.hInit2) ∧
    (Main.roundF 40 Main.hInit0 Main.hInit1 Main.hInit2
        = Utils.or (Utils.or (Utils.and Main.hInit0 Main.hInit1)
            (Utils.and Main.hInit0 Main.hInit2)) (Utils.and Main.hInit1 Main.hInit2) ∧
      Main.roundK 40 = "10001111000110111011110011011100".toList ∧
      jsParseInt (Main.roundK 40) = 0x8F1BBCDC) :=
  ⟨⟨by omega, by omega, by decide, by decide, by decide⟩,
    round_40_59_majority 40 Main.hInit0 Main.hInit1 Main.hInit2 (by omega) (by omega)
      (by decide) (by decide) (by decide)⟩

/-! ## The compression state invariant -/

/-- All five registers are 32-character binary strings. -/
def RegsBin (r : Main.Regs) : Prop :=
  Binary32 r.a ∧ Binary32 r.b ∧ Binary32 r.c ∧ Binary32 r.d ∧ Binary32 r.e

instance : DecidablePred RegsBin :=
  fun _ => inferInstanceAs (Decidable (_ ∧ _ ∧ _ ∧ _ ∧ _))

lemma regsBin_roundStep (ws : List (List Char)) (st : Main.Regs) (i : Nat)
    (h : RegsBin st) : RegsBin (Main.roundStep ws st i) :=
  ⟨binary32_add _ _, h.1, binary32_rotate 30 h.2.1, h.2.2.1, h.2.2.2.1⟩

lemma regsBin_foldl (ws : List (List Char)) : ∀ (l : List Nat) (st : Main.Regs),
    RegsBin st → RegsBin (l.foldl (Main.roundStep ws) st) := by
  intro l
  induction l with
  | nil => intro st h; exact h
  | cons i t ih => intro st h; exact ih _ (regsBin_roundStep ws st i h)

lemma regsBin_processChunk (hs : Main.Regs) (ws : List (List Char)) :
    RegsBin (Main.processChunk hs ws) :=
  ⟨binary32_add _ _, binary32_add _ _, binary32_add _ _, binary32_add _ _,
    binary32_add _ _⟩

lemma regsBin_foldl_chunks : ∀ (chunks : List (List (List Char))) (init : Main.Regs),
    RegsBin init → RegsBin (chunks.foldl Main.processChunk init) := by
  intro chunks
  induction chunks with
  | nil => intro init h; exact h
  | cons c t ih => intro init _; exact ih _ (regsBin_processChunk init c)

lemma regsBin_sha1Regs (msg : List Nat) : RegsBin (Main.sha1Regs msg) :=
  regsBin_foldl_chunks _ _ (by decide)

/-- C4: the digest of any message is 40 hexadecimal characters (five
registers of 8 hexadecimal characters each, i.e. 20 bytes). -/
theorem sha1_digest_20_bytes (msg : List Nat) :
    (Main.sha1 msg).length = 40 ∧
    (Utils.binToHex (Main.sha1Regs msg).a 8).length = 8 ∧
    (Utils.binToHex (Main.sha1Regs msg).b 8).length = 8 ∧
    (Utils.binToHex (Main.sha1Regs msg).c 8).length = 8 ∧
    (Utils.binToHex (Main.sha1Regs msg).d 8).length = 8 ∧
    (Utils.binToHex (Main.sha1Regs msg).e 8).length = 8 := by
  have h := regsBin_sha1Regs msg
  have bound : ∀ w : List Char, Binary32 w → jsParseInt w < 2 ^ 32 := by
    intro w hw
    have := jsParseInt_lt w
    rwa [hw.1] at this
  have l1 := binToHex_length _ (bound _ h.1)
  have l2 := binToHex_length _ (bound _ h.2.1)
  have l3 := binToHex_length _ (bound _ h.2.2.1)
  have l4 := binToHex_length _ (bound _ h.2.2.2.1)
  have l5 := binToHex_length _ (bound _ h.2.2.2.2)
  refine ⟨?_, l1, l2, l3, l4, l5⟩
  show (Utils.binToHex (Main.sha1Regs msg).a 8 ++ Utils.binToHex (Main.sha1Regs msg).b 8 ++
    Utils.binToHex (Main.sha1Regs msg).c 8 ++ Utils.binToHex (Main.sha1Regs msg).d 8 ++
    Utils.binToHex (Main.sha1Regs msg).e 8).length = 40
  simp only [List.length_append]
  omega

/-- C8: every addition of the compression function is modulo 2^32:
Utils.add at target length 32 returns the 32-character binary string whose
value is the sum of its inputs modulo 2^32; consequently the per-round
temp and the post-rounds register additions are each the integer sum
reduced modulo 2^32. -/
theorem additions_modulo_2_32 (w1 w2 : List Char) (h1 : Binary32 w1) (h2 : Binary32 w2) :
    (Binary32 (Utils.add w1 w2 32) ∧
      jsParseInt (Utils.add w1 w2 32) = (jsParseInt w1 + jsParseInt w2) % 2 ^ 32) ∧
    (∀ a f e k w : List Char,
      jsParseInt (Main.roundTemp a f e k w)
        = (jsParseInt (Utils.rotate a 5) + jsParseInt f + jsParseInt e + jsParseInt k
            + jsParseInt w) % 2 ^ 32) ∧
    (∀ (hs : Main.Regs) (ws : List (List Char)),
      jsParseInt (Main.processChunk hs ws).a
          = (jsParseInt hs.a
              + jsParseInt ((List.range 80).foldl (Main.roundStep ws) hs).a) % 2 ^ 32 ∧
      jsParseInt (Main.processChunk hs ws).b
          = (jsParseInt hs.b
              + jsParseInt ((List.range 80).foldl (Main.roundStep ws) hs).b) % 2 ^ 32 ∧
      jsParseInt (Main.processChunk hs ws).c
          = (jsParseInt hs.c
              + jsParseInt ((List.range 80).foldl (Main.roundStep ws) hs).c) % 2 ^ 32 ∧
      jsParseInt (Main.processChunk hs ws).d
          = (jsParseInt hs.d
              + jsParseInt ((List.range 80).foldl (Main.roundStep ws) hs).d) % 2 ^ 32 ∧
      jsParseInt (Main.processChunk hs ws).e
          = (jsParseInt hs.e
              + jsParseInt ((List.range 80).foldl (Main.roundStep ws) hs).e) % 2 ^ 32) := by
  refine ⟨⟨binary32_add w1 w2, add32_parse w1 w2⟩, ?_, ?_⟩
  · intro a f e k w
    show jsParseInt (Utils.add (Utils.add (Utils.add (Utils.add (Utils.rotate a 5) f 32)
      e 32) k 32) w 32) = _
    rw [add32_parse, add32_parse, add32_parse, add32_parse]
    have hM : (2 : Nat) ^ 32 = 4294967296 := by norm_num
    rw [hM]
    omega
  · intro hs ws
    exact ⟨add32_parse _ _, add32_parse _ _, add32_parse _ _, add32_parse _ _,
      add32_parse _ _⟩

/-- C8 witness. -/
theorem additions_modulo_2_32_witness :
    (Binary32 Main.hInit0 ∧ Binary32 Main.hInit1) ∧
    ((Binary32 (Utils.add Main.hInit0 Main.hInit1 32) ∧
      jsParseInt (Utils.add Main.hInit0 Main.hInit1 32)
        = (jsParseInt Main.hInit0 + jsParseInt Main.hInit1) % 2 ^ 32) ∧
    (∀ a f e k w : List Char,
      jsParseInt (Main.roundTemp a f e k w)
        = (jsParseInt (Utils.rotate a 5) + jsParseInt f + jsParseInt e + jsParseInt k
            + jsParseInt w) % 2 ^ 32) ∧
    (∀ (hs : Main.Regs) (ws : List (List Char)),
      jsParseInt (Main.processChunk hs ws).a
          = (jsParseInt hs.a
              + jsParseInt ((List.range 80).foldl (Main.roundStep ws) hs).a) % 2 ^ 32 ∧
      jsParseInt (Main.processChunk hs ws).b
          = (jsParseInt hs.b
              + jsParseInt ((List.range 80).foldl (Main.roundStep ws) hs).b) % 2 ^ 32 ∧
      jsParseInt (Main.processChunk hs ws).c
          = (jsParseInt hs.c
              + jsParseInt ((List.range 80).foldl (Main.roundStep ws) hs).c) % 2 ^ 32 ∧
      jsParseInt (Main.processChunk hs ws).d
          = (jsParseInt hs.d
              + jsParseInt ((List.range 80).foldl (Main.roundStep ws) hs).d) % 2 ^ 32 ∧
      jsParseInt (Main.processChunk hs ws).e
          = (jsParseInt hs.e
              + jsParseInt ((List.range 80).foldl (Main.roundStep ws) hs).e) % 2 ^ 32)) :=
  ⟨⟨by decide, by decide⟩,
    additions_modulo_2_32 Main.hInit0 Main.hInit1 (by decide) (by decide)⟩

/-! ## All schedule words are 32-bit binary strings -/

lemma getD_mem {α : Type} (l : List α) (n : Nat) (d : α) (h : n < l.length) :
    l.getD n d ∈ l := by
  rw [List.getD_eq_getElem l d h]
  exact List.getElem_mem h

lemma chunk_words (msg : List Nat) (h : (Main.step5_combine msg).length < 2 ^ 64) :
    ∀ ws ∈ Main.step10_words (Main.step9_chunks (Main.paddedMsg msg)),
      ws.length = 16 ∧ ∀ w ∈ ws, Binary32 w := by
  intro ws hws
  rcases List.mem_map.1 hws with ⟨c, hc, rfl⟩
  have hpad := paddedMsg_length msg h
  have hclen : c.length = 512 :=
    splitEvery_mem_length _ _ 512 (by omega) hpad.1 (le_refl _) c hc
  have hcbin : IsBin c :=
    splitEvery_mem_isBin _ _ 512 (isBin_paddedMsg msg) c hc
  constructor
  · rw [splitEvery_count c.length c 32 (by omega) (by omega) (le_refl _), hclen]
  · intro w hw
    exact ⟨splitEvery_mem_length c.length c 32 (by omega) (by omega) (le_refl _) w hw,
      splitEvery_mem_isBin c.length c 32 hcbin w hw⟩

lemma binary32_newWord (ws : List (List Char)) (h16 : 16 ≤ ws.length)
    (hall : ∀ w ∈ ws, Binary32 w) : Binary32 (Main.newWord ws) := by
  have b3 := hall _ (getD_mem ws (ws.length - 3) [] (by omega))
  have b8 := hall _ (getD_mem ws (ws.length - 8) [] (by omega))
  have b14 := hall _ (getD_mem ws (ws.length - 14) [] (by omega))
  have b16 := hall _ (getD_mem ws (ws.length - 16) [] (by omega))
  refine binary32_rotate 1 ?_
  have hx1 : (Utils.xor (ws.getD (ws.length - 3) [])
      (ws.getD (ws.length - 8) [])).length = 32 := by
    rw [xor_length_of_eq (by rw [b3.1, b8.1]), b3.1]
  have hx2 : (Utils.xor (Utils.xor (ws.getD (ws.length - 3) [])
      (ws.getD (ws.length - 8) [])) (ws.getD (ws.length - 14) [])).length = 32 := by
    rw [xor_length_of_eq (by rw [hx1, b14.1]), hx1]
  have hx3 : (Utils.xor (Utils.xor (Utils.xor (ws.getD (ws.length - 3) [])
      (ws.getD (ws.length - 8) [])) (ws.getD (ws.length - 14) []))
      (ws.getD (ws.length - 16) [])).length = 32 := by
    rw [xor_length_of_eq (by rw [hx2, b16.1]), hx2]
  exact ⟨hx3, isBin_xor _ _⟩

lemma genWordsAux_binary32 : ∀ (f : Nat) (ws : List (List Char)), 16 ≤ ws.length →
    (∀ w ∈ ws, Binary32 w) → ∀ w ∈ Main.genWordsAux f ws, Binary32 w := by
  intro f
  induction f with
  | zero => intro ws _ hall; simpa only [Main.genWordsAux] using hall
  | succ f ih =>
    intro ws h16 hall
    simp only [Main.genWordsAux]
    split
    · refine ih (ws ++ [Main.newWord ws]) (by simp; omega) ?_
      intro w hw
      rcases List.mem_append.1 hw with hm | hm
      · exact hall w hm
      · rw [List.mem_singleton] at hm
        subst hm
        exact binary32_newWord ws h16 hall
    · exact hall

/-- C10: every Utils operation used in compression returns a 32-character
binary string on 32-character binary inputs; every schedule word of every
chunk, every intermediate register state of the round loop, and the hash
registers after every chunk (hence after the whole computation) are
32-character binary strings. -/
theorem registers_32bit_binary :
    (∀ w1 w2, Binary32 w1 → Binary32 w2 → Binary32 (Utils.xor w1 w2) ∧
      Binary32 (Utils.or w1 w2) ∧ Binary32 (Utils.and w1 w2) ∧
      Binary32 (Utils.add w1 w2 32)) ∧
    (∀ w, Binary32 w → Binary32 (Utils.not w) ∧ ∀ n, Binary32 (Utils.rotate w n)) ∧
    (∀ msg, (Main.step5_combine msg).length < 2 ^ 64 →
      ∀ ws ∈ Main.step11_schedule (Main.step10_words (Main.step9_chunks
        (Main.paddedMsg msg))), ∀ w ∈ ws, Binary32 w) ∧
    (∀ (ws : List (List Char)) (st : Main.Regs), RegsBin st →
      ∀ l : List Nat, RegsBin (l.foldl (Main.roundStep ws) st)) ∧
    (∀ (hs : Main.Regs) (ws : List (List Char)), RegsBin (Main.processChunk hs ws)) ∧
    (∀ msg, RegsBin (Main.sha1Regs msg)) := by
  refine ⟨?_, ?_, ?_, ?_, regsBin_processChunk, regsBin_sha1Regs⟩
  · intro w1 w2 h1 h2
    have hl : w1.length = w2.length := by rw [h1.1, h2.1]
    refine ⟨⟨?_, isBin_xor w1 w2⟩, ⟨?_, isBin_or w1 w2⟩, ⟨?_, isBin_and w1 w2⟩,
      binary32_add w1 w2⟩
    · rw [xor_length_of_eq hl, h1.1]
    · rw [or_length_of_eq hl, h1.1]
    · rw [and_length_of_eq hl, h1.1]
  · intro w hw
    refine ⟨⟨?_, isBin_not w⟩, fun n => binary32_rotate n hw⟩
    rw [not_length, hw.1]
  · intro msg h ws hws w hw
    rcases List.mem_map.1 hws with ⟨ws0, hws0, rfl⟩
    have h0 := chunk_words msg h ws0 hws0
    exact genWordsAux_binary32 80 ws0 (by omega) h0.2 w hw
  · intro ws st h l
    exact regsBin_foldl ws l st h

/-- C10 witness. -/
theorem registers_32bit_binary_witness :
    (Binary32 Main.hInit0 ∧ Binary32 Main.hInit1 ∧
      (Main.step5_combine []).length < 2 ^ 64 ∧
      RegsBin ⟨Main.hInit0, Main.hInit1, Main.hInit2, Main.hInit3, Main.hInit4⟩) ∧
    (Binary32 (Utils.xor Main.hInit0 Main.hInit1) ∧
      Binary32 (Utils.not Main.hInit0) ∧
      (∀ ws ∈ Main.step11_schedule (Main.step10_words (Main.step9_chunks
        (Main.paddedMsg []))), ∀ w ∈ ws, Binary32 w) ∧
      RegsBin (([0, 1] : List Nat).foldl
        (Main.roundStep [Main.hInit0])
        ⟨Main.hInit0, Main.hInit1, Main.hInit2, Main.hInit3, Main.hInit4⟩) ∧
      RegsBin (Main.processChunk
        ⟨Main.hInit0, Main.hInit1, Main.hInit2, Main.hInit3, Main.hInit4⟩
        [Main.hInit0]) ∧
      RegsBin (Main.sha1Regs [])) := by
  have h := registers_32bit_binary
  have hb0 : Binary32 Main.hInit0 := by decide
  have hb1 : Binary32 Main.hInit1 := by decide
  have hrb : RegsBin ⟨Main.hInit0, Main.hInit1, Main.hInit2, Main.hInit3, Main.hInit4⟩ := by
    decide
  refine ⟨⟨hb0, hb1, by decide, hrb⟩, ⟨(h.1 _ _ hb0 hb1).1, (h.2.1 _ hb0).1,
    h.2.2.1 [] (by decide), h.2.2.2.1 [Main.hInit0] _ hrb [0, 1],
    h.2.2.2.2.1 _ [Main.hInit0], h.2.2.2.2.2 []⟩⟩

/-! ## Concrete digests

The two known-answer tests are settled by evaluating the embedded pipeline
stage by stage on the concrete inputs, threading explicit intermediate
values through the schedule expansion and the 80 compression rounds. -/

lemma foldl_range_add (f : Main.Regs → Nat → Main.Regs) (a b : Nat) (acc : Main.Regs) :
    (List.range (a + b)).foldl f acc
      = ((List.range b).map (fun x => a + x)).foldl f ((List.range a).foldl f acc) := by
  rw [List.range_add, List.foldl_append]

/-- The padded message for the empty input. -/
def padE : List Char := "10000000000000000000000000000000000000000000000000000000000000000000000000000000000000000000000000000000000000000000000000000000000000000000000000000000000000000000000000000000000000000000000000000000000000000000000000000000000000000000000000000000000000000000000000000000000000000000000000000000000000000000000000000000000000000000000000000000000000000000000000000000000000000000000000000000000000000000000000000000000000000000000000000000000000000000000000000000000000000000000000000000000000000000000000000000".toList

def wordsE : List (List Char) := [
   "10000000000000000000000000000000".toList,
   "00000000000000000000000000000000".toList,
   "00000000000000000000000000000000".toList,
   "00000000000000000000000000000000".toList,
   "00000000000000000000000000000000".toList,
   "00000000000000000000000000000000".toList,
   "00000000000000000000000000000000".toList,
   "00000000000000000000000000000000".toList,
   "00000000000000000000000000000000".toList,
   "00000000000000000000000000000000".toList,
   "00000000000000000000000000000000".toList,
   "00000000000000000000000000000000".toList,
   "00000000000000000000000000000000".toList,
   "00000000000000000000000000000000".toList,
   "00000000000000000000000000000000".toList,
   "00000000000000000000000000000000".toList]

def schedE : List (List Char) := [
   "10000000000000000000000000000000".toList,
   "00000000000000000000000000000000".toList,
   "00000000000000000000000000000000".toList,
   "00000000000000000000000000000000".toList,
   "00000000000000000000000000000000".toList,
   "00000000000000000000000000000000".toList,
   "00000000000000000000000000000000".toList,
   "00000000000000000000000000000000".toList,
   "00000000000000000000000000000000".toList,
   "00000000000000000000000000000000".toList,
   "00000000000000000000000000000000".toList,
   "00000000000000000000000000000000".toList,
   "00000000000000000000000000000000".toList,
   "00000000000000000000000000000000".toList,
   "00000000000000000000000000000000".toList,
   "00000000000000000000000000000000".toList,
   "00000000000000000000000000000001".toList,
   "00000000000000000000000000000000".toList,
   "00000000000000000000000000000000".toList,
   "00000000000000000000000000000010".toList,
   "00000000000000000000000000000000".toList,
   "00000000000000000000000000000000".toList,
   "00000000000000000000000000000100".toList,
   "00000000000000000000000000000000".toList,
   "00000000000000000000000000000010".toList,
   "00000000000000000000000000001000".toList,
   "00000000000000000000000000000000".toList,
   "00000000000000000000000000000000".toList,
   "00000000000000000000000000010000".toList,
   "00000000000000000000000000000000".toList,
   "00000000000000000000000000001010".toList,
   "00000000000000000000000000100000".toList,
   "00000000000000000000000000000110".toList,
   "00000000000000000000000000000000".toList,
   "00000000000000000000000001000000".toList,
   "00000000000000000000000000001000".toList,
   "00000000000000000000000000101000".toList,
   "00000000000000000000000010000000".toList,
   "00000000000000000000000000001000".toList,
   "00000000000000000000000000000000".toList,
   "00000000000000000000000100001000".toList,
   "00000000000000000000000000000000".toList,
   "00000000000000000000000010100000".toList,
   "00000000000000000000001000000000".toList,
   "00000000000000000000000001100100".toList,
   "00000000000000000000000000000000".toList,
   "00000000000000000000010000001000".toList,
   "00000000000000000000000010001000".toList,
   "00000000000000000000001010011100".toList,
   "00000000000000000000100000000000".toList,
   "00000000000000000000000010000000".toList,
   "00000000000000000000000000101000".toList,
   "00000000000000000001000010001000".toList,
   "00000000000000000000000000000000".toList,
   "00000000000000000000101001000000".toList,
   "00000000000000000010000000000000".toList,
   "00000000000000000000011001101000".toList,
   "00000000000000000000000010000000".toList,
   "00000000000000000100000010001000".toList,
   "00000000000000000000100010000000".toList,
   "00000000000000000010100011001000".toList,
   "00000000000000001000000000000000".toList,
   "00000000000000000000100010101000".toList,
   "00000000000000000000000010000000".toList,
   "00000000000000010000100011101000".toList,
   "00000000000000000000000000000000".toList,
   "00000000000000001010000000000000".toList,
   "00000000000000100000000010000000".toList,
   "00000000000000000110010000000000".toList,
   "00000000000000000000000000000000".toList,
   "00000000000001000000100000000000".toList,
   "00000000000000001000100000000000".toList,
   "00000000000000101001110000010000".toList,
   "00000000000010000000000000000000".toList,
   "00000000000000001000000010000000".toList,
   "00000000000000000010100000100000".toList,
   "00000000000100001000100011000000".toList,
   "00000000000000000000000000000000".toList,
   "00000000000010100100000011000000".toList,
   "00000000001000000000000010000000".toList]

def stE10 : Main.Regs := ⟨"11001011110110111111111100110001".toList, "01000001001101110110011000010001".toList, "00100001110000011101001000000000".toList, "11110000001001110101111111001001".toList, "10111001000100101010110111011001".toList⟩

def stE20 : Main.Regs := ⟨"11100111010110001110100011011010".toList, "00001011001100001000100011011101".toList, "10001010001010100101010010000011".toList, "11000001101011111110010001011100".toList, "11110110001111110101100101010001".toList⟩

def stE30 : Main.Regs := ⟨"11001010010001010101011011001011".toList, "10000111010010110111100001101111".toList, "01110001111011000100011110001011".toList, "01010011110010111011010001110000".toList, "00001101001111001111010110110110".toList⟩

def stE40 : Main.Regs := ⟨"10011011110110111101110101110001".toList, "01100010001001110011001101010001".toList, "11101100100000000101111000100010".toList, "01000001001111000001110110011010".toList, "00101010111011101010111001100010".toList⟩

def stE50 : Main.Regs := ⟨"01101010111010000010011011111111".toList, "00001011110010101001100100100010".toList, "11111001101101001110011111010000".toList, "00101000011001010110111010100100".toList, "11101011111110011010010101101010".toList⟩

def stE60 : Main.Regs := ⟨"10011011100111010010100100010011".toList, "10011000001010111100101111001010".toList, "10111000011010111110101011001000".toList, "11000101101000110011100000101110".toList, "10101111100100101001001011111010".toList⟩

def stE70 : Main.Regs := ⟨"01010000001111000111101011100000".toList, "10001011101000000000011000100111".toList, "00111001111001101011111011111100".toList, "11000100010001001101000001111100".toList, "11110100110111001000100101110010".toList⟩

def stE80 : Main.Regs := ⟨"01110010111101001000000011101101".toList, "01101110100111011001111110000100".toList, "10011001100110101110001011110001".toList, "10000101001011011100010000011010".toList, "11101100000001010010010100011001".toList⟩

def finE : Main.Regs := ⟨"11011010001110011010001111101110".toList, "01011110011010110100101100001101".toList, "00110010010101011011111111101111".toList, "10010101011000000001100010010000".toList, "10101111110110000000011100001001".toList⟩

set_option maxRecDepth 8000 in
lemma padE_eq : Main.paddedMsg [] = padE := by decide

set_option maxRecDepth 4000 in
lemma chunksE_eq : Main.step9_chunks padE = [padE] := by decide

set_option maxRecDepth 4000 in
lemma wordsE_eq : Main.step10_words [padE] = [wordsE] := by decide

set_option maxRecDepth 4000 in
lemma schedE_eq : Main.genWords wordsE = schedE := by decide

set_option maxRecDepth 4000 in
lemma roundsE10 : (List.range 10).foldl (Main.roundStep schedE) (⟨Main.hInit0, Main.hInit1, Main.hInit2, Main.hInit3, Main.hInit4⟩ : Main.Regs) = stE10 := by
  decide

set_option maxRecDepth 4000 in
lemma roundsE20 : (List.range 20).foldl (Main.roundStep schedE) (⟨Main.hInit0, Main.hInit1, Main.hInit2, Main.hInit3, Main.hInit4⟩ : Main.Regs) = stE20 := by
  rw [show (20 : Nat) = 10 + 10 from rfl, foldl_range_add, roundsE10]
  decide

set_option maxRecDepth 4000 in
lemma roundsE30 : (List.range 30).foldl (Main.roundStep schedE) (⟨Main.hInit0, Main.hInit1, Main.hInit2, Main.hInit3, Main.hInit4⟩ : Main.Regs) = stE30 := by
  rw [show (30 : Nat) = 20 + 10 from rfl, foldl_range_add, roundsE20]
  decide

set_option maxRecDepth 4000 in
lemma roundsE40 : (List.range 40).foldl (Main.roundStep schedE) (⟨Main.hInit0, Main.hInit1, Main.hInit2, Main.hInit3, Main.hInit4⟩ : Main.Regs) = stE40 := by
  rw [show (40 : Nat) = 30 + 10 from rfl, foldl_range_add, roundsE30]
  decide

set_option maxRecDepth 4000 in
lemma roundsE50 : (List.range 50).foldl (Main.roundStep schedE) (⟨Main.hInit0, Main.hInit1, Main.hInit2, Main.hInit3, Main.hInit4⟩ : Main.Regs) = stE50 := by
  rw [show (50 : Nat) = 40 + 10 from rfl, foldl_range_add, roundsE40]
  decide

set_option maxRecDepth 4000 in
lemma roundsE60 : (List.range 60).foldl (Main.roundStep schedE) (⟨Main.hInit0, Main.hInit1, Main.hInit2, Main.hInit3, Main.hInit4⟩ : Main.Regs) = stE60 := by
  rw [show (60 : Nat) = 50 + 10 from rfl, foldl_range_add, roundsE50]
  decide

set_option maxRecDepth 4000 in
lemma roundsE70 : (List.range 70).foldl (Main.roundStep schedE) (⟨Main.hInit0, Main.hInit1, Main.hInit2, Main.hInit3, Main.hInit4⟩ : Main.Regs) = stE70 := by
  rw [show (70 : Nat) = 60 + 10 from rfl, foldl_range_add, roundsE60]
  decide

set_option maxRecDepth 4000 in
lemma roundsE80 : (List.range 80).foldl (Main.roundStep schedE) (⟨Main.hInit0, Main.hInit1, Main.hInit2, Main.hInit3, Main.hInit4⟩ : Main.Regs) = stE80 := by
  rw [show (80 : Nat) = 70 + 10 from rfl, foldl_range_add, roundsE70]
  decide

set_option maxRecDepth 4000 in
lemma finE_eq : Main.processChunk (⟨Main.hInit0, Main.hInit1, Main.hInit2, Main.hInit3, Main.hInit4⟩ : Main.Regs) schedE = finE := by
  simp only [Main.processChunk]
  rw [roundsE80]
  decide

lemma regsE_eq : Main.sha1Regs [] = finE := by
  simp only [Main.sha1Regs]
  rw [padE_eq, chunksE_eq, wordsE_eq]
  simp only [Main.step11_schedule, List.map_cons, List.map_nil]
  rw [schedE_eq]
  simp only [List.foldl_cons, List.foldl_nil]
  rw [finE_eq]

/-- The padded message for the input Hello World. -/
def padH : List Char := "01001000011001010110110001101100011011110010000001010111011011110111001001101100011001001000000000000000000000000000000000000000000000000000000000000000000000000000000000000000000000000000000000000000000000000000000000000000000000000000000000000000000000000000000000000000000000000000000000000000000000000000000000000000000000000000000000000000000000000000000000000000000000000000000000000000000000000000000000000000000000000000000000000000000000000000000000000000000000000000000000000000000000000000000001011000".toList

def wordsH : List (List Char) := [
   "01001000011001010110110001101100".toList,
   "01101111001000000101011101101111".toList,
   "01110010011011000110010010000000".toList,
   "00000000000000000000000000000000".toList,
   "00000000000000000000000000000000".toList,
   "00000000000000000000000000000000".toList,
   "00000000000000000000000000000000".toList,
   "00000000000000000000000000000000".toList,
   "00000000000000000000000000000000".toList,
   "00000000000000000000000000000000".toList,
   "00000000000000000000000000000000".toList,
   "00000000000000000000000000000000".toList,
   "00000000000000000000000000000000".toList,
   "00000000000000000000000000000000".toList,
   "00000000000000000000000000000000".toList,
   "00000000000000000000000001011000".toList]

def schedH : List (List Char) := [
   "01001000011001010110110001101100".toList,
   "01101111001000000101011101101111".toList,
   "01110010011011000110010010000000".toList,
   "00000000000000000000000000000000".toList,
   "00000000000000000000000000000000".toList,
   "00000000000000000000000000000000".toList,
   "00000000000000000000000000000000".toList,
   "00000000000000000000000000000000".toList,
   "00000000000000000000000000000000".toList,
   "00000000000000000000000000000000".toList,
   "00000000000000000000000000000000".toList,
   "00000000000000000000000000000000".toList,
   "00000000000000000000000000000000".toList,
   "00000000000000000000000000000000".toList,
   "00000000000000000000000000000000".toList,
   "00000000000000000000000001011000".toList,
   "01110100000100100001000111011000".toList,
   "11011110010000001010111011011110".toList,
   "11100100110110001100100110110000".toList,
   "11101000001001000010001110110000".toList,
   "10111100100000010101110110111101".toList,
   "11001001101100011001001101100001".toList,
   "11010000010010000100011101100001".toList,
   "01111001000000101011101111001011".toList,
   "01111011010001110000010101110011".toList,
   "00011100000100011101001101111110".toList,
   "00111011101101001110010011110111".toList,
   "00100110110001100100110110000111".toList,
   "01000001001000010001110110000111".toList,
   "11100100000010101110111110011101".toList,
   "00000101001110000011011001111101".toList,
   "11001100110001100001000110010101".toList,
   "00011111000011100110010100001100".toList,
   "01011110100110101101000011011010".toList,
   "01011110010101101100001011011111".toList,
   "00110000101110110011000010110100".toList,
   "11100110111001011010111100000010".toList,
   "00010101110111100000101111010000".toList,
   "00111101000110001000100110110111".toList,
   "10011110011000011010110001000100".toList,
   "10010100010001110001111010110000".toList,
   "10110010101010111000111100101000".toList,
   "01110101010001010010111111010111".toList,
   "11001100011000010001100000111100".toList,
   "00100000101011100001011110100000".toList,
   "10010000101011111011010000011110".toList,
   "11010110100111111000010111110101".toList,
   "01011001001001101111010101010110".toList,
   "10001011011000000001101011111010".toList,
   "00010100001010111101010101100110".toList,
   "00101001101000010110111010111001".toList,
   "11000100110010000111001101000100".toList,
   "11011110111100011100100011100111".toList,
   "01100101011000101111101001100110".toList,
   "01110110000100001100001101101101".toList,
   "01010110001110100011110110111011".toList,
   "00011110000000011010001111110110".toList,
   "00111001111000110000001000111110".toList,
   "01010100111000001101011011101010".toList,
   "00001100000011101111100100100001".toList,
   "00100010010001101011000100011000".toList,
   "11110000000101101101101110001001".toList,
   "01001111110000110100101010000110".toList,
   "01110010111000110101100100100110".toList,
   "10011001101011000001100001111000".toList,
   "01001101100001111101110100110101".toList,
   "10100010101001100101001100100101".toList,
   "01101000000100001101000011110110".toList,
   "10001110010000001100111101001111".toList,
   "11000011110100001001111011100010".toList,
   "10011111100001011111010111010110".toList,
   "00100110111101010101001111011001".toList,
   "00100001001110111110011100001100".toList,
   "11001111110111111010011111111001".toList,
   "11100101111010101100111000011101".toList,
   "01101010011001100010101010100101".toList,
   "01011000001101010010011001010000".toList,
   "01001001100111111010010010100001".toList,
   "01000111000110010001101100011010".toList,
   "10000011010010011110001100110100".toList]

def stH10 : Main.Regs := ⟨"00100100101011111110001110101110".toList, "11100110011011100111110001111111".toList, "10100011110111011011101110001010".toList, "10110010110001101110000111111101".toList, "10100110101111101100101010100110".toList⟩

def stH20 : Main.Regs := ⟨"11000100010010101111100010011010".toList, "11000010100111010000001010101101".toList, "01111011110111011010011100100011".toList, "01101101111101011111101000111000".toList, "11111101010100100010000001110001".toList⟩

def stH30 : Main.Regs := ⟨"00000011111000100100110000000101".toList, "10010001011110100010000100101100".toList, "10100101111110000101111001100001".toList, "00010111101101001001001110111100".toList, "00100101010010010001001001001000".toList⟩

def stH40 : Main.Regs := ⟨"10010100101010000011110000101110".toList, "00001000010101100110101110001010".toList, "11100011101101010001100010010101".toList, "10001011000100000001110000111110".toList, "00010101010100111011111101110100".toList⟩

def stH50 : Main.Regs := ⟨"11110110100000110111010101101101".toList, "00100001000100011101010001011000".toList, "01111010110001010000011101001101".toList, "11010111100110001001000101011100".toList, "01000010010100010001100100110110".toList⟩

def stH60 : Main.Regs := ⟨"00100100111010000000001011011100".toList, "10011000111010011010010110001011".toList, "01101100110110100001111101010100".toList, "10000000100101100100110000010111".toList, "11110101010011010110110110010010".toList⟩

def stH70 : Main.Regs := ⟨"01010110000110110100010101000011".toList, "01010001100000110111100100110101".toList, "10001111011011100011100101011010".toList, "01010010101001110101101000110100".toList, "00010011010100110110100101110100".toList⟩

def stH80 : Main.Regs := ⟨"10100011000010000011001010100111".toList, "11100111101010110011100101111001".toList, "10010110111100001001001100011011".toList, "01100111100100111000001111001010".toList, "11110111111100011010010011100000".toList⟩

def finH : Main.Regs := ⟨"00001010010011010101010110101000".toList, "11010111011110001110010100000010".toList, "00101111101010110111000000011001".toList, "01110111110001011101100001000000".toList, "10111011110001001000011011010000".toList⟩

set_option maxRecDepth 8000 in
lemma padH_eq : Main.paddedMsg [72, 101, 108, 108, 111, 32, 87, 111, 114, 108, 100] = padH := by decide

set_option maxRecDepth 4000 in
lemma chunksH_eq : Main.step9_chunks padH = [padH] := by decide

set_option maxRecDepth 4000 in
lemma wordsH_eq : Main.step10_words [padH] = [wordsH] := by decide

set_option maxRecDepth 4000 in
lemma schedH_eq : Main.genWords wordsH = schedH := by decide

set_option maxRecDepth 4000 in
lemma roundsH10 : (List.range 10).foldl (Main.roundStep schedH) (⟨Main.hInit0, Main.hInit1, Main.hInit2, Main.hInit3, Main.hInit4⟩ : Main.Regs) = stH10 := by
  decide

set_option maxRecDepth 4000 in
lemma roundsH20 : (List.range 20).foldl (Main.roundStep schedH) (⟨Main.hInit0, Main.hInit1, Main.hInit2, Main.hInit3, Main.hInit4⟩ : Main.Regs) = stH20 := by
  rw [show (20 : Nat) = 10 + 10 from rfl, foldl_range_add, roundsH10]
  decide

set_option maxRecDepth 4000 in
lemma roundsH30 : (List.range 30).foldl (Main.roundStep schedH) (⟨Main.hInit0, Main.hInit1, Main.hInit2, Main.hInit3, Main.hInit4⟩ : Main.Regs) = stH30 := by
  rw [show (30 : Nat) = 20 + 10 from rfl, foldl_range_add, roundsH20]
  decide

set_option maxRecDepth 4000 in
lemma roundsH40 : (List.range 40).foldl (Main.roundStep schedH) (⟨Main.hInit0, Main.hInit1, Main.hInit2, Main.hInit3, Main.hInit4⟩ : Main.Regs) = stH40 := by
  rw [show (40 : Nat) = 30 + 10 from rfl, foldl_range_add, roundsH30]
  decide

set_option maxRecDepth 4000 in
lemma roundsH50 : (List.range 50).foldl (Main.roundStep schedH) (⟨Main.hInit0, Main.hInit1, Main.hInit2, Main.hInit3, Main.hInit4⟩ : Main.Regs) = stH50 := by
  rw [show (50 : Nat) = 40 + 10 from rfl, foldl_range_add, roundsH40]
  decide

set_option maxRecDepth 4000 in
lemma roundsH60 : (List.range 60).foldl (Main.roundStep schedH) (⟨Main.hInit0, Main.hInit1, Main.hInit2, Main.hInit3, Main.hInit4⟩ : Main.Regs) = stH60 := by
  rw [show (60 : Nat) = 50 + 10 from rfl, foldl_range_add, roundsH50]
  decide

set_option maxRecDepth 4000 in
lemma roundsH70 : (List.range 70).foldl (Main.roundStep schedH) (⟨Main.hInit0, Main.hInit1, Main.hInit2, Main.hInit3, Main.hInit4⟩ : Main.Regs) = stH70 := by
  rw [show (70 : Nat) = 60 + 10 from rfl, foldl_range_add, roundsH60]
  decide

set_option maxRecDepth 4000 in
lemma roundsH80 : (List.range 80).foldl (Main.roundStep schedH) (⟨Main.hInit0, Main.hInit1, Main.hInit2, Main.hInit3, Main.hInit4⟩ : Main.Regs) = stH80 := by
  rw [show (80 : Nat) = 70 + 10 from rfl, foldl_range_add, roundsH70]
  decide

set_option maxRecDepth 4000 in
lemma finH_eq : Main.processChunk (⟨Main.hInit0, Main.hInit1, Main.hInit2, Main.hInit3, Main.hInit4⟩ : Main.Regs) schedH = finH := by
  simp only [Main.processChunk]
  rw [roundsH80]
  decide

lemma regsH_eq : Main.sha1Regs [72, 101, 108, 108, 111, 32, 87, 111, 114, 108, 100] = finH := by
  simp only [Main.sha1Regs]
  rw [padH_eq, chunksH_eq, wordsH_eq]
  simp only [Main.step11_schedule, List.map_cons, List.map_nil]
  rw [schedH_eq]
  simp only [List.foldl_cons, List.foldl_nil]
  rw [finH_eq]

set_option maxRecDepth 4000 in
/-- C5: the digest of the empty input is
da39a3ee5e6b4b0d3255bfef95601890afd80709. -/
theorem sha1_empty_digest :
    Main.sha1 [] = "da39a3ee5e6b4b0d3255bfef95601890afd80709".toList := by
  simp only [Main.sha1]
  rw [regsE_eq]
  decide

set_option maxRecDepth 4000 in
lemma sha1_hello_eq :
    Main.sha1 [72, 101, 108, 108, 111, 32, 87, 111, 114, 108, 100]
      = "0a4d55a8d778e5022fab701977c5d840bbc486d0".toList := by
  simp only [Main.sha1]
  rw [regsH_eq]
  decide

set_option maxRecDepth 4000 in
/-- C1 counterexample: the digest of Hello World is not the 39-character
string 0a4d55a8d778e5022fab701977c5d840bbc486d claimed by the spec. -/
theorem sha1_hello_claim_false :
    Main.sha1 [72, 101, 108, 108, 111, 32, 87, 111, 114, 108, 100]
      ≠ "0a4d55a8d778e5022fab701977c5d840bbc486d".toList := by
  rw [sha1_hello_eq]
  decide

/-- C1 (amended): the digest of Hello World is the 40-character string
0a4d55a8d778e5022fab701977c5d840bbc486d0. -/
theorem sha1_hello_digest :
    Main.sha1 [72, 101, 108, 108, 111, 32, 87, 111, 114, 108, 100]
      = "0a4d55a8d778e5022fab701977c5d840bbc486d0".toList := sha1_hello_eq
